import Mathlib

/-!
Verification of the rmm_server credential-acquisition engine.

This file is a shallow embedding of the two core source files,
`auth_playwright_optimized.py` and `auth_mcp_server.py`, together with
theorems settling the frozen claims about them.  Pure Python functions are
translated to executable Lean functions; the stateful token-cache file is
passed explicitly; the Playwright browser run and the HTTP layer are
modelled as explicit oracles (their results are inputs, the repository code
that consumes them is translated faithfully).  The Python standard-library
calls the code relies on are modelled by executable Lean implementations
of their CPython semantics: `base64.urlsafe_b64decode` (the lenient
decoder, including character skipping and early padding termination),
`json.loads` on bytes (encoding detection, `surrogatepass` decoding of
UTF-8/16/32, integer and correctly-rounded IEEE-754 binary64 float
numerals, `NaN`/`Infinity` constants, surrogate-pair escapes), and
`str.upper()` (exact on every character whose uppercase is ASCII).
Current time (`time.time()`) and timestamps (`datetime.now().isoformat()`)
are threaded as parameters.

One representational gap: a Python `str` may hold lone surrogate code
points, which a Lean `Char` cannot.  Lone surrogates (producible only via
`surrogatepass` decoding or `\uXXXX` escapes, and only inside string
content) are modelled by the placeholder U+FFFD.  They never influence
parse success, the `"exp"` key lookup, or any other observable the claims
mention, so no claim verdict depends on the placeholder's identity.
-/

namespace Rmm

/-- JSON values as produced by Python's `json.loads` / stored by Python's
`json.dump`.  `num` is a Python `int` (an integer numeral, arbitrary
precision).  `float s e` is a finite Python `float` of exact value
`s * 2^e` (every finite IEEE-754 binary64 value is such a dyadic rational;
the parser rounds decimal literals correctly, see `roundToDouble`);
`finf neg` is `float('±inf')` and `fnan` is `float('nan')`. -/
inductive Json where
  | null
  | bool (b : Bool)
  | num (n : Int)
  | float (s : Int) (e : Int)
  | finf (neg : Bool)
  | fnan
  | str (s : String)
  | arr (elems : List Json)
  | obj (fields : List (String × Json))

/-- Field lookup in a JSON object, mirroring a Python `dict`: when the
parser records a duplicate key, the last occurrence wins (as in
`json.loads`).  Code-built documents never duplicate keys. -/
def lookupField : List (String × Json) → String → Option Json
  | [], _ => none
  | (k, v) :: rest, key =>
    match lookupField rest key with
    | some w => some w
    | none => if k = key then some v else none

/-- `d.get(key)` on a JSON object; `none` when the value is not an object
(Python would raise `AttributeError` there — callers of this helper in the
model are only ever applied to objects, see the per-claim hypotheses). -/
def jget (j : Json) (key : String) : Option Json :=
  match j with
  | Json.obj fields => lookupField fields key
  | _ => none

/-- Python truthiness of a JSON value (`if x:`).  A float is truthy unless
it is (positive or negative) zero; infinities and `nan` are truthy. -/
def pyTruthy (j : Json) : Bool :=
  match j with
  | Json.null => false
  | Json.bool b => b
  | Json.num n => n != 0
  | Json.float s _ => s != 0
  | Json.finf _ => true
  | Json.fnan => true
  | Json.str s => s ≠ ""
  | Json.arr l => !l.isEmpty
  | Json.obj l => !l.isEmpty

/-- Python truthiness of `d.get(key)`-style optional values (`None` is falsy). -/
def pyTruthyOpt (j : Option Json) : Bool :=
  match j with
  | none => false
  | some v => pyTruthy v

/-- `str.split(sep)` for a one-character separator, as in Python:
`''.split('.') == ['']`. -/
def splitOnChar (sep : Char) : List Char → List (List Char)
  | [] => [[]]
  | c :: rest =>
    let r := splitOnChar sep rest
    if c = sep then [] :: r
    else
      match r with
      | h :: t => (c :: h) :: t
      | [] => [[c]]

/-- ASCII whitespace recognized by `str.strip()` on the tokens this system
handles. -/
def pySpace (c : Char) : Bool :=
  c = ' ' || c = '\t' || c = '\n' || c = '\r' || c.toNat = 11 || c.toNat = 12

/-- Python `str.strip()` (ASCII whitespace). -/
def pyStrip (s : String) : String :=
  String.mk ((((s.data.dropWhile pySpace).reverse).dropWhile pySpace).reverse)

/-- `str.upper()` of one character.  This reproduces CPython's Unicode
uppercase mapping exactly on ASCII, on Latin-1, and on every character
whose uppercase expansion is ASCII — by exhaustive enumeration of Unicode
these are precisely ß→SS, ı→I, ſ→S and the seven Latin ligatures
U+FB00–U+FB06 — which are the only characters that can make
`method.upper()` land on an all-ASCII method name.  Characters outside
these ranges (whose uppercase is never ASCII) are left unchanged; for
them the model's result can differ from CPython's, but never crosses into
the ASCII strings the dispatch and the claims compare against. -/
def pyCharUpper (c : Char) : List Char :=
  let n := c.toNat
  if 97 ≤ n ∧ n ≤ 122 then [Char.ofNat (n - 32)]
  else if 0xE0 ≤ n ∧ n ≤ 0xFE ∧ n ≠ 0xF7 then [Char.ofNat (n - 32)]
  else if n = 0xDF then ['S', 'S']
  else if n = 0xB5 then [Char.ofNat 0x39C]
  else if n = 0xFF then [Char.ofNat 0x178]
  else if n = 0x131 then ['I']
  else if n = 0x17F then ['S']
  else if n = 0xFB00 then ['F', 'F']
  else if n = 0xFB01 then ['F', 'I']
  else if n = 0xFB02 then ['F', 'L']
  else if n = 0xFB03 then ['F', 'F', 'I']
  else if n = 0xFB04 then ['F', 'F', 'L']
  else if n = 0xFB05 ∨ n = 0xFB06 then ['S', 'T']
  else [c]

/-- Python `str.upper()` (see `pyCharUpper`). -/
def pyUpper (s : String) : String :=
  String.mk (s.data.flatMap pyCharUpper)

/-! ## base64url decoding (`base64.urlsafe_b64decode`)

`urlsafe_b64decode` translates `-`/`_` to `+`/`/`, requires pure-ASCII
input (`str.encode('ascii')`), and calls the lenient `binascii`
decoder.  The lenient decoder is a character-at-a-time state machine:
characters outside the alphabet are skipped; a `=` seen with at least two
data characters in the current quad counts as padding, and once padding
completes a quad the decoder stops successfully, ignoring the rest; a `=`
seen earlier in a quad is skipped; at end of input, an incomplete quad is
an error (`Incorrect padding`, or the distinct single-character error). -/

/-- Value of a base64 alphabet character (both the urlsafe and the standard
alphabet are accepted, since the urlsafe translation leaves `+`/`/` intact). -/
def b64Val (c : Char) : Option Nat :=
  let n := c.toNat
  if 65 ≤ n ∧ n ≤ 90 then some (n - 65)
  else if 97 ≤ n ∧ n ≤ 122 then some (n - 97 + 26)
  else if 48 ≤ n ∧ n ≤ 57 then some (n - 48 + 52)
  else if c = '-' ∨ c = '+' then some 62
  else if c = '_' ∨ c = '/' then some 63
  else none

/-- The lenient `binascii.a2b_base64` state machine: position in the
current quad (`quadPos`), padding characters seen in it (`pads`), pending
bits (`leftchar`), and the output accumulator (reversed). -/
def b64DecodeAux : List Char → Nat → Nat → Nat → List Nat → Option (List Nat)
  | [], quadPos, _, _, out => if quadPos = 0 then some out.reverse else none
  | c :: rest, quadPos, pads, leftchar, out =>
    if c = '=' then
      if 2 ≤ quadPos ∧ 4 ≤ quadPos + pads + 1 then some out.reverse
      else if 2 ≤ quadPos then b64DecodeAux rest quadPos (pads + 1) leftchar out
      else b64DecodeAux rest quadPos pads leftchar out
    else
      match b64Val c with
      | none => b64DecodeAux rest quadPos pads leftchar out
      | some v =>
        match quadPos with
        | 0 => b64DecodeAux rest 1 0 v out
        | 1 => b64DecodeAux rest 2 0 (v % 16) ((leftchar * 4 + v / 16) :: out)
        | 2 => b64DecodeAux rest 3 0 (v % 4) ((leftchar * 16 + v / 4) :: out)
        | _ => b64DecodeAux rest 0 0 0 ((leftchar * 64 + v) :: out)

/-- `base64.urlsafe_b64decode` on a character list; `none` models the
raised `binascii.Error` / `ValueError`. -/
def urlsafeB64Decode (cs : List Char) : Option (List Nat) :=
  if cs.any (fun c => 128 ≤ c.toNat) then none
  else b64DecodeAux cs 0 0 0 []

/-! ## Byte decoding for `json.loads(bytes)`

`json.loads` on bytes runs `json.detect_encoding` and then decodes with
the detected codec and the `surrogatepass` error handler: UTF-8 admits the
three-byte encodings of surrogates, UTF-16 passes unpaired surrogate code
units through (pairs still combine), UTF-32 passes surrogate values
through; everything else is strict.  A resulting lone surrogate is
represented by U+FFFD (see the header note). -/

/-- A decoded code unit: lone surrogates become the U+FFFD placeholder. -/
def unitChar (u : Nat) : Char :=
  if 0xD800 ≤ u ∧ u < 0xE000 then Char.ofNat 0xFFFD else Char.ofNat u

/-- Strict UTF-8 decoding with `surrogatepass` (the `0xED` lead byte may
encode a surrogate): rejects overlong forms, other invalid sequences, and
code points above U+10FFFF. -/
def utf8Decode : List Nat → Option (List Char)
  | [] => some []
  | b :: rest =>
    if b < 0x80 then (utf8Decode rest).map fun cs => Char.ofNat b :: cs
    else if b < 0xC2 then none
    else if b < 0xE0 then
      match rest with
      | b2 :: rest2 =>
        if 0x80 ≤ b2 ∧ b2 < 0xC0 then
          (utf8Decode rest2).map fun cs =>
            Char.ofNat ((b - 0xC0) * 64 + (b2 - 0x80)) :: cs
        else none
      | [] => none
    else if b < 0xF0 then
      match rest with
      | b2 :: b3 :: rest2 =>
        let lo2 := if b = 0xE0 then 0xA0 else 0x80
        if lo2 ≤ b2 ∧ b2 < 0xC0 ∧ 0x80 ≤ b3 ∧ b3 < 0xC0 then
          (utf8Decode rest2).map fun cs =>
            unitChar ((b - 0xE0) * 4096 + (b2 - 0x80) * 64 + (b3 - 0x80)) :: cs
        else none
      | _ => none
    else if b < 0xF5 then
      match rest with
      | b2 :: b3 :: b4 :: rest2 =>
        let lo2 := if b = 0xF0 then 0x90 else 0x80
        let hi2 := if b = 0xF4 then 0x90 else 0xC0
        if lo2 ≤ b2 ∧ b2 < hi2 ∧ 0x80 ≤ b3 ∧ b3 < 0xC0 ∧ 0x80 ≤ b4 ∧ b4 < 0xC0 then
          (utf8Decode rest2).map fun cs =>
            Char.ofNat ((b - 0xF0) * 262144 + (b2 - 0x80) * 4096 +
              (b3 - 0x80) * 64 + (b4 - 0x80)) :: cs
        else none
      | _ => none
    else none

/-- UTF-16 decoding with `surrogatepass` (fuel-indexed): surrogate pairs
combine, lone surrogates pass through, an odd trailing byte is an error. -/
def utf16DecodeAux (bigEndian : Bool) : Nat → List Nat → Option (List Char)
  | 0, _ => none
  | _, [] => some []
  | _, [_] => none
  | fuel + 1, b1 :: b2 :: rest =>
    let u := if bigEndian then b1 * 256 + b2 else b2 * 256 + b1
    if u < 0xD800 ∨ 0xE000 ≤ u then
      (utf16DecodeAux bigEndian fuel rest).map fun cs => Char.ofNat u :: cs
    else if u < 0xDC00 then
      match rest with
      | c1 :: c2 :: rest2 =>
        let u2 := if bigEndian then c1 * 256 + c2 else c2 * 256 + c1
        if 0xDC00 ≤ u2 ∧ u2 < 0xE000 then
          (utf16DecodeAux bigEndian fuel rest2).map fun cs =>
            Char.ofNat (0x10000 + (u - 0xD800) * 1024 + (u2 - 0xDC00)) :: cs
        else
          (utf16DecodeAux bigEndian fuel rest).map fun cs => unitChar u :: cs
      | _ =>
        (utf16DecodeAux bigEndian fuel rest).map fun cs => unitChar u :: cs
    else
      (utf16DecodeAux bigEndian fuel rest).map fun cs => unitChar u :: cs

/-- UTF-16 decoding with `surrogatepass` (fuel instantiated to cover the
whole input, two bytes per step). -/
def utf16Decode (bigEndian : Bool) (bs : List Nat) : Option (List Char) :=
  utf16DecodeAux bigEndian (bs.length + 1) bs

/-- UTF-32 decoding with `surrogatepass`: surrogate values pass through,
out-of-range values and a short trailing group are errors. -/
def utf32Decode (bigEndian : Bool) : List Nat → Option (List Char)
  | [] => some []
  | b1 :: b2 :: b3 :: b4 :: rest =>
    let u := if bigEndian then ((b1 * 256 + b2) * 256 + b3) * 256 + b4
             else ((b4 * 256 + b3) * 256 + b2) * 256 + b1
    if u ≤ 0x10FFFF then
      (utf32Decode bigEndian rest).map fun cs => unitChar u :: cs
    else none
  | _ => none

/-- `json.detect_encoding` followed by the corresponding decode: BOM
checks first (UTF-32 before UTF-16, then UTF-8, each consuming the BOM),
then the null-byte pattern of the first four (or two) bytes, defaulting
to UTF-8. -/
def detectDecode (bs : List Nat) : Option (List Char) :=
  match bs with
  | 0x00 :: 0x00 :: 0xFE :: 0xFF :: rest => utf32Decode true rest
  | 0xFF :: 0xFE :: 0x00 :: 0x00 :: rest => utf32Decode false rest
  | 0xFE :: 0xFF :: rest => utf16Decode true rest
  | 0xFF :: 0xFE :: rest => utf16Decode false rest
  | 0xEF :: 0xBB :: 0xBF :: rest => utf8Decode rest
  | b0 :: b1 :: b2 :: b3 :: _ =>
    if b0 = 0 then
      if b1 ≠ 0 then utf16Decode true bs else utf32Decode true bs
    else if b1 = 0 then
      if b2 ≠ 0 ∨ b3 ≠ 0 then utf16Decode false bs else utf32Decode false bs
    else utf8Decode bs
  | [b0, b1] =>
    if b0 = 0 then utf16Decode true bs
    else if b1 = 0 then utf16Decode false bs
    else utf8Decode bs
  | _ => utf8Decode bs

/-! ## JSON parsing (`json.loads`)

A fuel-indexed recursive-descent parser over the decoded characters,
mirroring CPython's scanner: strings with escapes and surrogate-pair
combination, objects/arrays, `true`/`false`/`null`, the constants
`NaN`/`Infinity`/`-Infinity`, and the `NUMBER_RE` grammar
`(-?(?:0|[1-9]\d+?))(\.\d+)?([eE][-+]?\d+)?` with integer literals kept
exact and float literals rounded to the nearest binary64 value. -/

/-- JSON insignificant whitespace (space, tab, LF, CR only). -/
def jsonWs (c : Char) : Bool :=
  c = ' ' || c = '\t' || c = '\n' || c = '\r'

def skipWsC (cs : List Char) : List Char := cs.dropWhile jsonWs

def lbrace : Char := Char.ofNat 0x7b

def rbrace : Char := Char.ofNat 0x7d

def hexVal (c : Char) : Option Nat :=
  let b := c.toNat
  if 48 ≤ b ∧ b ≤ 57 then some (b - 48)
  else if 65 ≤ b ∧ b ≤ 70 then some (b - 55)
  else if 97 ≤ b ∧ b ≤ 102 then some (b - 87)
  else none

def isDigit (c : Char) : Bool :=
  48 ≤ c.toNat && c.toNat ≤ 57

/-- Parse the body of a JSON string (after the opening quote), returning
the string and the remaining input.  A `\uXXXX` escape in the high
surrogate range followed immediately by a full `\uXXXX` escape combines
with it when the second is a low surrogate and errors when the second has
invalid hex digits; otherwise the surrogate stands alone (as U+FFFD, see
the header note). -/
def parseStringBody : Nat → List Char → Option (String × List Char)
  | 0, _ => none
  | _, [] => none
  | fuel + 1, c :: rest =>
    if c = '"' then some ("", rest)
    else if c = '\\' then
      match rest with
      | [] => none
      | e :: rest2 =>
        let next : Option (Char × List Char) :=
          if e = '"' then some ('"', rest2)
          else if e = '\\' then some ('\\', rest2)
          else if e = '/' then some ('/', rest2)
          else if e = 'b' then some (Char.ofNat 8, rest2)
          else if e = 'f' then some (Char.ofNat 12, rest2)
          else if e = 'n' then some (Char.ofNat 10, rest2)
          else if e = 'r' then some (Char.ofNat 13, rest2)
          else if e = 't' then some (Char.ofNat 9, rest2)
          else if e = 'u' then
            match rest2 with
            | h1 :: h2 :: h3 :: h4 :: rest3 =>
              match hexVal h1, hexVal h2, hexVal h3, hexVal h4 with
              | some v1, some v2, some v3, some v4 =>
                let u := ((v1 * 16 + v2) * 16 + v3) * 16 + v4
                if 0xD800 ≤ u ∧ u < 0xDC00 then
                  match rest3 with
                  | '\\' :: 'u' :: g1 :: g2 :: g3 :: g4 :: rest4 =>
                    match hexVal g1, hexVal g2, hexVal g3, hexVal g4 with
                    | some w1, some w2, some w3, some w4 =>
                      let u2 := ((w1 * 16 + w2) * 16 + w3) * 16 + w4
                      if 0xDC00 ≤ u2 ∧ u2 < 0xE000 then
                        some (Char.ofNat
                          (0x10000 + (u - 0xD800) * 1024 + (u2 - 0xDC00)), rest4)
                      else some (unitChar u, rest3)
                    | _, _, _, _ => none
                  | _ => some (unitChar u, rest3)
                else some (unitChar u, rest3)
              | _, _, _, _ => none
            | _ => none
          else none
        match next with
        | none => none
        | some (cc, r) =>
          (parseStringBody fuel r).map fun p => (String.mk (cc :: p.1.data), p.2)
    else if c.toNat < 0x20 then none
    else
      (parseStringBody fuel rest).map fun p => (String.mk (c :: p.1.data), p.2)

def digitsToNat (ds : List Char) : Nat :=
  ds.foldl (fun a c => a * 10 + (c.toNat - 48)) 0

def bitlenAux : Nat → Nat → Nat
  | 0, _ => 0
  | fuel + 1, n => if n = 0 then 0 else bitlenAux fuel (n / 2) + 1

/-- Binary length: `2^(bitlen n - 1) ≤ n < 2^(bitlen n)` for `n ≥ 1`. -/
def bitlen (n : Nat) : Nat := bitlenAux (n + 1) n

def digitLenAux : Nat → Nat → Nat
  | 0, _ => 0
  | fuel + 1, n => if n = 0 then 0 else digitLenAux fuel (n / 10) + 1

/-- Decimal length: `n < 10^(digitLen n)`. -/
def digitLen (n : Nat) : Nat := digitLenAux (n + 1) n

/-- Decide `a / b ≥ 2^c` for positive naturals by cross-multiplication. -/
def ge2 (a b : Nat) (c : Int) : Bool :=
  if 0 ≤ c then b * 2 ^ c.toNat ≤ a else b ≤ a * 2 ^ (-c).toNat

/-- Round the exact decimal value `±m·10^k` to the nearest IEEE-754
binary64 value (ties to even), as CPython's `strtod` does for float
literals: find the exponent `e` whose grid the value falls on (subnormals
use `e = -1074`), round the scaled significand half-to-even, carry, and
overflow to infinity beyond the binary64 range.  The two magnitude guards
short-circuit values far outside the range (they decide the result without
building the huge scaled integers). -/
def roundToDouble (neg : Bool) (m : Nat) (k : Int) : Json :=
  if m = 0 then Json.float 0 0
  else if 309 ≤ k then Json.finf neg
  else if k + digitLen m ≤ -324 then Json.float 0 0
  else
    let ab : Nat × Nat :=
      if 0 ≤ k then (m * 10 ^ k.toNat, 1) else (m, 10 ^ (-k).toNat)
    let a := ab.1
    let b := ab.2
    let lc : Int := (bitlen a : Int) - (bitlen b : Int)
    let l : Int := if ge2 a b lc then lc else lc - 1
    let e : Int := max (l - 52) (-1074)
    let pq : Nat × Nat :=
      if 0 ≤ e then (a, b * 2 ^ e.toNat) else (a * 2 ^ (-e).toNat, b)
    let s0 := pq.1 / pq.2
    let r := pq.1 % pq.2
    let s := if pq.2 < 2 * r then s0 + 1
             else if 2 * r < pq.2 then s0
             else if s0 % 2 = 0 then s0 else s0 + 1
    let se : Nat × Int := if s = 2 ^ 53 then (2 ^ 52, e + 1) else (s, e)
    if 971 < se.2 then Json.finf neg
    else Json.float (if neg then -(se.1 : Int) else (se.1 : Int)) se.2

/-- The optional exponent part `([eE][-+]?\d+)?` of a numeral: its digits,
its sign, and the remaining input (`fallback` when the group does not
match). -/
def expPart (r3 fallback : List Char) : List Char × Bool × List Char :=
  let sgn : Bool × List Char :=
    match r3 with
    | '-' :: r5 => (true, r5)
    | '+' :: r5 => (false, r5)
    | _ => (false, r3)
  let ds := sgn.2.takeWhile isDigit
  if ds.isEmpty then ([], false, fallback)
  else (ds, sgn.1, sgn.2.dropWhile isDigit)

/-- A JSON numeral per `NUMBER_RE`: mandatory integer part (`0` or no
leading zero), optional fraction and exponent groups each requiring at
least one digit (an unmatched group simply ends the numeral).  A numeral
with neither fraction nor exponent is a Python `int` (exact); otherwise it
is the correctly-rounded `float`. -/
def parseNumber (cs : List Char) : Option (Json × List Char) :=
  let sgn : Bool × List Char :=
    match cs with
    | '-' :: r => (true, r)
    | _ => (false, cs)
  let neg := sgn.1
  match sgn.2 with
  | [] => none
  | c :: r =>
    if isDigit c = false then none
    else
      let ir : List Char × List Char :=
        if c = '0' then (['0'], r)
        else (c :: r.takeWhile isDigit, r.dropWhile isDigit)
      let fr : List Char × List Char :=
        match ir.2 with
        | '.' :: r2 =>
          let ds := r2.takeWhile isDigit
          if ds.isEmpty then ([], ir.2) else (ds, r2.dropWhile isDigit)
        | _ => ([], ir.2)
      let ex : List Char × Bool × List Char :=
        match fr.2 with
        | 'e' :: r3 => expPart r3 fr.2
        | 'E' :: r3 => expPart r3 fr.2
        | _ => ([], false, fr.2)
      if fr.1.isEmpty ∧ ex.1.isEmpty then
        let m := digitsToNat ir.1
        some (Json.num (if neg then -(m : Int) else (m : Int)), ir.2)
      else
        let m := digitsToNat (ir.1 ++ fr.1)
        let ev : Int := if ex.2.1 then -(digitsToNat ex.1 : Int)
                        else (digitsToNat ex.1 : Int)
        some (roundToDouble neg m (ev - fr.1.length), ex.2.2)

mutual

/-- Parse a JSON value (CPython `scan_once`): string, object, array,
`true`/`false`/`null`, `NaN`/`Infinity`/`-Infinity`, or a numeral. -/
def parseVal : Nat → List Char → Option (Json × List Char)
  | 0, _ => none
  | fuel + 1, cs =>
    match skipWsC cs with
    | [] => none
    | c :: rest =>
      if c = '"' then
        (parseStringBody (rest.length + 1) rest).map fun p => (Json.str p.1, p.2)
      else if c = lbrace then
        match skipWsC rest with
        | d :: r2 =>
          if d = rbrace then some (Json.obj [], r2)
          else (parseMembers fuel (d :: r2)).map fun p => (Json.obj p.1, p.2)
        | [] => none
      else if c = '[' then
        match skipWsC rest with
        | d :: r2 =>
          if d = ']' then some (Json.arr [], r2)
          else (parseElems fuel (d :: r2)).map fun p => (Json.arr p.1, p.2)
        | [] => none
      else if c = 't' then
        match rest with
        | 'r' :: 'u' :: 'e' :: r => some (Json.bool true, r)
        | _ => none
      else if c = 'f' then
        match rest with
        | 'a' :: 'l' :: 's' :: 'e' :: r => some (Json.bool false, r)
        | _ => none
      else if c = 'n' then
        match rest with
        | 'u' :: 'l' :: 'l' :: r => some (Json.null, r)
        | _ => none
      else if c = 'N' then
        match rest with
        | 'a' :: 'N' :: r => some (Json.fnan, r)
        | _ => none
      else if c = 'I' then
        match rest with
        | 'n' :: 'f' :: 'i' :: 'n' :: 'i' :: 't' :: 'y' :: r =>
          some (Json.finf false, r)
        | _ => none
      else if c = '-' then
        match rest with
        | 'I' :: 'n' :: 'f' :: 'i' :: 'n' :: 'i' :: 't' :: 'y' :: r =>
          some (Json.finf true, r)
        | _ => parseNumber (c :: rest)
      else parseNumber (c :: rest)

/-- Parse the members of a non-empty JSON object (keys must be strings). -/
def parseMembers : Nat → List Char → Option (List (String × Json) × List Char)
  | 0, _ => none
  | fuel + 1, cs =>
    match skipWsC cs with
    | '"' :: rest =>
      match parseStringBody (rest.length + 1) rest with
      | none => none
      | some (key, r1) =>
        match skipWsC r1 with
        | ':' :: r2 =>
          match parseVal fuel r2 with
          | none => none
          | some (v, r3) =>
            match skipWsC r3 with
            | ',' :: r4 => (parseMembers fuel r4).map fun p => ((key, v) :: p.1, p.2)
            | d :: r4 => if d = rbrace then some ([(key, v)], r4) else none
            | [] => none
        | _ => none
    | _ => none

/-- Parse the elements of a non-empty JSON array. -/
def parseElems : Nat → List Char → Option (List Json × List Char)
  | 0, _ => none
  | fuel + 1, cs =>
    match parseVal fuel cs with
    | none => none
    | some (v, r1) =>
      match skipWsC r1 with
      | ',' :: r2 => (parseElems fuel r2).map fun p => (v :: p.1, p.2)
      | ']' :: r2 => some ([v], r2)
      | _ => none

end

/-- The decoder applied to a character sequence: one value, then only
trailing whitespace. -/
def jsonParse (cs : List Char) : Option Json :=
  match parseVal (cs.length + 1) cs with
  | some (j, rest) => if (skipWsC rest).isEmpty then some j else none
  | none => none

/-- `json.loads` on a byte sequence: detect the encoding, decode with
`surrogatepass`, parse one value, allow only trailing whitespace. -/
def jsonLoads (bs : List Nat) : Option Json :=
  (detectDecode bs).bind jsonParse

/-! ## `is_jwt_expired` (auth_playwright_optimized.py, lines 28-46)

```python
payload = token.split('.')[1]
padding = '=' * (-len(payload) % 4)
payload += padding
decoded = base64.urlsafe_b64decode(payload)
payload_json = json.loads(decoded)
exp = payload_json.get('exp')
if exp is None: return True
now = int(time.time())
return now >= exp
```
with any raised exception caught and turned into `True` (fail-closed).
`now` (the value of `int(time.time())`) is threaded as a parameter. -/

/-- Pad a base64 segment to a multiple of 4 characters:
`'=' * (-len(payload) % 4)`. -/
def padTo4 (p : List Char) : List Char :=
  p ++ List.replicate ((4 - p.length % 4) % 4) '='

/-- Python's `now >= exp` for an `int` left operand and a parsed JSON
number: exact against an `int`, exact dyadic comparison against a finite
`float`, always false against `+inf` and `nan`, always true against
`-inf`.  (CPython compares `int` with `float` exactly, without rounding.) -/
def numGe (now : Int) : Json → Bool
  | Json.num n => now ≥ n
  | Json.float s e =>
    if 0 ≤ e then now ≥ s * 2 ^ e.toNat else now * 2 ^ (-e).toNat ≥ s
  | Json.finf neg => neg
  | Json.fnan => false
  | _ => false

/-- Direct translation of `is_jwt_expired`.  The catch-all `true` branches
are the `except` clause: missing second segment (`IndexError`), failed
decode/parse, a non-object payload (`AttributeError` on `.get`), a
non-number `exp` (`TypeError` on `>=`), and a `null`/absent `exp`
(`exp is None`).  A boolean `exp` compares as the Python integer 0/1; a
float `exp` (including `±inf` and `nan`) compares by Python's exact
`int >= float`. -/
def is_jwt_expired (now : Int) (token : String) : Bool :=
  match (splitOnChar '.' token.data).get? 1 with
  | none => true
  | some payload =>
    match urlsafeB64Decode (padTo4 payload) with
    | none => true
    | some decoded =>
      match jsonLoads decoded with
      | none => true
      | some (Json.obj fields) =>
        match lookupField fields "exp" with
        | none => true
        | some Json.null => true
        | some (Json.num e) => numGe now (Json.num e)
        | some (Json.float s e) => numGe now (Json.float s e)
        | some (Json.finf neg) => numGe now (Json.finf neg)
        | some Json.fnan => numGe now Json.fnan
        | some (Json.bool b) => numGe now (Json.num (if b then 1 else 0))
        | some _ => true
      | some _ => true

/-- The second dot-separated segment of a token. -/
def jwtPayloadSegment (token : String) : Option (List Char) :=
  (splitOnChar '.' token.data).get? 1

/-- The base64url-decoded bytes of the (padded) second segment. -/
def jwtDecodedBytes (token : String) : Option (List Nat) :=
  (jwtPayloadSegment token).bind fun p => urlsafeB64Decode (padTo4 p)

/-- The parsed claim set of a token. -/
def jwtClaims (token : String) : Option Json :=
  (jwtDecodedBytes token).bind jsonLoads

/-- The `exp` claim of a claim set as a Python number (a `bool` is the
integer 0/1); `none` when the claim set is not an object or the value is
absent, `null`, or not a number. -/
def expField (j : Json) : Option Json :=
  match j with
  | Json.obj fields =>
    match lookupField fields "exp" with
    | some (Json.num e) => some (Json.num e)
    | some (Json.float s e) => some (Json.float s e)
    | some (Json.finf neg) => some (Json.finf neg)
    | some Json.fnan => some Json.fnan
    | some (Json.bool b) => some (Json.num (if b then 1 else 0))
    | _ => none
  | _ => none

/-- The numeric `exp` claim of a token. -/
def jwtExp (token : String) : Option Json :=
  (jwtClaims token).bind expField

example : jwtExp "a.eyJleHAiOjEwMDB9.b" = some (Json.num 1000) := rfl
example : is_jwt_expired 999 "a.eyJleHAiOjEwMDB9.b" = false := by decide
example : is_jwt_expired 1000 "a.eyJleHAiOjEwMDB9.b" = true := by decide
example : is_jwt_expired 0 "" = true := by decide
example : is_jwt_expired 0 "a.eyJmb28iOjF9.b" = true := by decide
example : is_jwt_expired 0 "a.eyJleHAiOjIuNWU5fQ==.b" = false := by decide
example : is_jwt_expired 0 "a.eyJleHAiOjk5OTk5OTk5OTk5LCJ4Ijoi_yJ9.b" = true := by
  decide
example : is_jwt_expired 0 "a.eyJleHAiOjF9!.b" = false := by decide
example : is_jwt_expired 0 "a.ewAiAGUAeABwACIAOgAxAH0A.b" = false := by decide
example : is_jwt_expired 5 "a.ewAiAGUAeABwACIAOgAxAH0A.b" = true := by decide

/-- **C1.** For every token, `is_jwt_expired` returns true when the token
has no second dot-separated segment (in particular when it is empty), when
the padded segment fails base64url decoding, when the decoded bytes fail
JSON parsing (including a failed text decode), or when the parsed claim
set carries no `exp` number (absent key, `null`, a non-object claim set,
or a non-numeric value — all fail-closed); otherwise it returns true
exactly when Python's `now >= exp` holds for the current time in epoch
seconds, and false otherwise. -/
theorem is_jwt_expired_spec (now : Int) (token : String) :
    is_jwt_expired now token = true ↔
      jwtPayloadSegment token = none ∨ jwtDecodedBytes token = none ∨
      jwtClaims token = none ∨ jwtExp token = none ∨
      ∃ v, jwtExp token = some v ∧ numGe now v = true := by
  unfold is_jwt_expired jwtExp jwtClaims jwtDecodedBytes jwtPayloadSegment
  cases hseg : (splitOnChar '.' token.data).get? 1 with
  | none => simp
  | some payload =>
    simp only [Option.some_bind]
    cases hdec : urlsafeB64Decode (padTo4 payload) with
    | none => simp
    | some decoded =>
      simp only [Option.some_bind]
      cases hjson : jsonLoads decoded with
      | none => simp
      | some j =>
        simp only [Option.some_bind]
        cases j with
        | obj fields =>
          simp only [expField]
          cases hexp : lookupField fields "exp" with
          | none => simp
          | some v =>
            cases v <;> simp [numGe]
        | null => simp [expField]
        | bool b => simp [expField]
        | num n => simp [expField]
        | float s e => simp [expField]
        | finf neg => simp [expField]
        | fnan => simp [expField]
        | str s => simp [expField]
        | arr l => simp [expField]

/-- Sanity instance for C1 at concrete inputs: an unexpired token, the
fail-closed cases of an empty token and a missing `exp` claim, a float
`exp`, and a non-UTF-8 payload. -/
theorem is_jwt_expired_spec_example :
    is_jwt_expired 999 "a.eyJleHAiOjEwMDB9.b" = false ∧
    is_jwt_expired 1000 "a.eyJleHAiOjEwMDB9.b" = true ∧
    is_jwt_expired 0 "" = true ∧
    is_jwt_expired 0 "a.eyJmb28iOjF9.b" = true ∧
    is_jwt_expired 0 "a.eyJleHAiOjIuNWU5fQ==.b" = false ∧
    is_jwt_expired 0 "a.eyJleHAiOjk5OTk5OTk5OTk5LCJ4Ijoi_yJ9.b" = true := by
  refine ⟨?_, ?_, ?_, ?_, ?_, ?_⟩ <;> decide

/-! ## Token store and lifecycle (auth_mcp_server.py)

The cache file `auth_token.json` is modelled by its parsed contents:
`none` when the file does not exist, `some doc` otherwise.  A corrupt file
is represented by the error object `load_token_data` returns for it
(`{"error": ...}`), which is observationally what every caller sees.
`TokenManager.save_token_data` overwrites the whole document. -/

/-- The parsed state of `auth_token.json`. -/
abbrev CacheFile := Option Json

/-- `TokenManager.load_token_data` (lines 48-57): the parsed file, or
`None` when it does not exist. -/
def loadTokenData (f : CacheFile) : Option Json := f

/-- `token_manager.load_token_data() or {}`: Python `or` replaces a falsy
result (`None` or an empty object) with `{}`. -/
def loadOr (f : CacheFile) : Json :=
  match f with
  | some j => if pyTruthy j then j else Json.obj []
  | none => Json.obj []

/-- `TokenManager.save_token_data` (lines 59-66): whole-document
overwrite. -/
def saveTokenData (doc : Json) (_f : CacheFile) : CacheFile :=
  some doc

/-- The candidate token of a loaded document (lines 144-145 / 167-168):
`token_data.get("token_extraction", {})`, then `.get("token")` when that
is a dict, else `None`. -/
def tokenCandidate (tokenData : Json) : Option Json :=
  match (jget tokenData "token_extraction").getD (Json.obj []) with
  | Json.obj fields => lookupField fields "token"
  | _ => none

/-- The cache-validity predicate (line 149 / 171):
`token and token.strip() and not is_jwt_expired(token)`.  A truthy
non-string value would raise `AttributeError` at `token.strip()` in
Python; the documents this system writes only ever store strings there,
and such values are treated as invalid here. -/
def tokenValid (t : Option Json) (now : Int) : Bool :=
  match t with
  | some (Json.str s) => s ≠ "" && pyStrip s ≠ "" && !is_jwt_expired now s
  | _ => false

/-- The string of a valid candidate (only read under `tokenValid`). -/
def tokenStr (t : Option Json) : String :=
  match t with
  | some (Json.str s) => s
  | _ => ""

/-- One behaviour of `AuthTokenExtractor().run()` — the Playwright login
automation, modelled as an oracle.  `run()` always returns a dict
(`result`); it may instead raise (`raises`/`errMsg`); `fileAfter` is the
cache-file state as left by the extractor's own `save_token_to_file`
writes during the run. -/
structure ExtractorRun where
  raises : Bool
  errMsg : String
  result : List (String × Json)
  fileAfter : CacheFile

/-- `TokenManager.run_playwright_token_extraction` (lines 68-126), given
the oracle behaviour `ex` of the extractor, the timestamp string `ts`
(`datetime.now().isoformat()`), and the cache file.  Returns the
extraction-result dict and the cache file afterwards.  On success with a
truthy token the file is overwritten with the `file_data` document; on a
raised exception the `error_data` document is saved. -/
def runPlaywrightTokenExtraction (ex : ExtractorRun) (ts : String)
    (_f : CacheFile) : Json × CacheFile :=
  if ex.raises then
    let errorData := Json.obj [("success", Json.bool false),
      ("error", Json.str ex.errMsg), ("extracted_at", Json.str ts)]
    (errorData, saveTokenData errorData ex.fileAfter)
  else
    let success := (lookupField ex.result "success").getD Json.null
    let token := (lookupField ex.result "token").getD Json.null
    let extractionResult := Json.obj [("success", success), ("token", token),
      ("message", Json.str "Token extraction completed successfully."),
      ("retrieved_at", Json.str ts)]
    if pyTruthy success && pyTruthy token then
      let fileData := Json.obj [
        ("token_extraction", Json.obj [("success", Json.bool true),
          ("token", token), ("source", Json.str "playwright_extraction"),
          ("extracted_at", Json.str ts)]),
        ("api_test", (lookupField ex.result "api_test").getD Json.null),
        ("saved_at", Json.str ts)]
      (extractionResult, saveTokenData fileData ex.fileAfter)
    else
      (extractionResult, ex.fileAfter)

/-- Result of `_get_valid_token`: the Python return value (`None` or the
list `[token, token_data]`), together with the cache file afterwards and
the number of automation runs triggered. -/
structure TokenFetch where
  ret : Option (String × Json)
  file : CacheFile
  runs : Nat

/-- `_get_valid_token` (lines 162-185): return the cached token when it is
present, non-empty and unexpired; otherwise run the automation once, and
on a successful extraction reload the stored document and re-validate the
freshly stored token with the same predicate before returning it. -/
def getValidToken (ex : ExtractorRun) (now : Int) (ts : String)
    (f : CacheFile) : TokenFetch :=
  let tokenData := loadOr f
  let token := tokenCandidate tokenData
  if tokenValid token now then
    { ret := some (tokenStr token, tokenData), file := f, runs := 0 }
  else
    let ex1 := runPlaywrightTokenExtraction ex ts f
    if pyTruthyOpt (jget ex1.1 "success") && pyTruthyOpt (jget ex1.1 "token") then
      let tokenData1 := loadOr ex1.2
      let token1 := tokenCandidate tokenData1
      if tokenValid token1 now then
        { ret := some (tokenStr token1, tokenData1), file := ex1.2, runs := 1 }
      else
        { ret := none, file := ex1.2, runs := 1 }
    else
      { ret := none, file := ex1.2, runs := 1 }

/-- `Option.getD · Json.null` mirrors `dict.get`'s `None` default:
truthiness is unchanged. -/
theorem pyTruthy_getD_null (o : Option Json) :
    pyTruthy (o.getD Json.null) = pyTruthyOpt o := by
  cases o <;> rfl

/-- A concrete unexpired token: payload `{"exp":1000}`. -/
def sampleToken : String := "a.eyJleHAiOjEwMDB9.b"

/-- A concrete cache document holding a valid token. -/
def sampleValidFile : CacheFile :=
  some (Json.obj [("token_extraction",
    Json.obj [("success", Json.bool true), ("token", Json.str sampleToken)]),
    ("api_calls", Json.arr [])])

/-- An extractor behaviour that raises. -/
def sampleExtractorFail : ExtractorRun :=
  { raises := true, errMsg := "boom", result := [], fileAfter := none }

/-- An extractor behaviour that succeeds with token `t`. -/
def sampleExtractorOk (t : String) : ExtractorRun :=
  { raises := false, errMsg := "",
    result := [("success", Json.bool true), ("token", Json.str t),
      ("api_test", Json.null)],
    fileAfter := none }

/-- **C2.** When the stored `token_extraction.token` is present, non-empty
after stripping, and not expired, `_get_valid_token` returns the cached
token with zero automation runs and leaves the cache file unchanged; hence
a second call in succession under the same valid cache also triggers zero
automation runs. -/
theorem getValidToken_cache_hit (ex₁ ex₂ : ExtractorRun) (now₁ now₂ : Int)
    (ts₁ ts₂ : String) (f : CacheFile)
    (h₁ : tokenValid (tokenCandidate (loadOr f)) now₁ = true)
    (h₂ : tokenValid (tokenCandidate (loadOr f)) now₂ = true) :
    (getValidToken ex₁ now₁ ts₁ f).runs = 0 ∧
    (getValidToken ex₁ now₁ ts₁ f).file = f ∧
    (getValidToken ex₁ now₁ ts₁ f).ret =
      some (tokenStr (tokenCandidate (loadOr f)), loadOr f) ∧
    (getValidToken ex₂ now₂ ts₂ (getValidToken ex₁ now₁ ts₁ f).file).runs = 0 := by
  simp [getValidToken, h₁, h₂]

/-- Witness for C2 at a concrete valid cache. -/
theorem getValidToken_cache_hit_witness :
    (tokenValid (tokenCandidate (loadOr sampleValidFile)) 0 = true ∧
     tokenValid (tokenCandidate (loadOr sampleValidFile)) 5 = true) ∧
    ((getValidToken sampleExtractorFail 0 "t1" sampleValidFile).runs = 0 ∧
     (getValidToken sampleExtractorFail 0 "t1" sampleValidFile).file = sampleValidFile ∧
     (getValidToken sampleExtractorFail 0 "t1" sampleValidFile).ret =
       some (tokenStr (tokenCandidate (loadOr sampleValidFile)), loadOr sampleValidFile) ∧
     (getValidToken sampleExtractorFail 5 "t2"
       (getValidToken sampleExtractorFail 0 "t1" sampleValidFile).file).runs = 0) :=
  ⟨⟨by decide, by decide⟩,
   getValidToken_cache_hit sampleExtractorFail sampleExtractorFail 0 5 "t1" "t2"
     sampleValidFile (by decide) (by decide)⟩

/-- **C6.** When no valid cached token is found, `_get_valid_token` runs
the automation exactly once (no implicit retry); on a successful
extraction it reloads the stored document and re-validates the freshly
stored token with the same predicate before returning it, and it returns
no token when the automation run fails or the re-validation fails. -/
theorem getValidToken_miss (ex : ExtractorRun) (now : Int) (ts : String)
    (f : CacheFile)
    (h : tokenValid (tokenCandidate (loadOr f)) now = false) :
    (getValidToken ex now ts f).runs = 1 ∧
    (getValidToken ex now ts f).file = (runPlaywrightTokenExtraction ex ts f).2 ∧
    (getValidToken ex now ts f).ret =
      (if pyTruthyOpt (jget (runPlaywrightTokenExtraction ex ts f).1 "success")
          && pyTruthyOpt (jget (runPlaywrightTokenExtraction ex ts f).1 "token")
          && tokenValid (tokenCandidate (loadOr (runPlaywrightTokenExtraction ex ts f).2)) now
       then some (tokenStr (tokenCandidate (loadOr (runPlaywrightTokenExtraction ex ts f).2)),
                  loadOr (runPlaywrightTokenExtraction ex ts f).2)
       else none) := by
  cases hA : pyTruthyOpt (jget (runPlaywrightTokenExtraction ex ts f).1 "success")
      && pyTruthyOpt (jget (runPlaywrightTokenExtraction ex ts f).1 "token") with
  | false => simp [getValidToken, h, hA]
  | true =>
    cases hB : tokenValid
        (tokenCandidate (loadOr (runPlaywrightTokenExtraction ex ts f).2)) now with
    | false => simp [getValidToken, h, hA, hB]
    | true => simp [getValidToken, h, hA, hB]

/-- Witness for C6 at a concrete cache miss with a successful extraction. -/
theorem getValidToken_miss_witness :
    tokenValid (tokenCandidate (loadOr (none : CacheFile))) 0 = false ∧
    ((getValidToken (sampleExtractorOk sampleToken) 0 "t" none).runs = 1 ∧
     (getValidToken (sampleExtractorOk sampleToken) 0 "t" none).file =
       (runPlaywrightTokenExtraction (sampleExtractorOk sampleToken) "t" none).2 ∧
     (getValidToken (sampleExtractorOk sampleToken) 0 "t" none).ret =
       (if pyTruthyOpt (jget (runPlaywrightTokenExtraction (sampleExtractorOk sampleToken) "t" none).1 "success")
           && pyTruthyOpt (jget (runPlaywrightTokenExtraction (sampleExtractorOk sampleToken) "t" none).1 "token")
           && tokenValid (tokenCandidate (loadOr (runPlaywrightTokenExtraction (sampleExtractorOk sampleToken) "t" none).2)) 0
        then some (tokenStr (tokenCandidate (loadOr (runPlaywrightTokenExtraction (sampleExtractorOk sampleToken) "t" none).2)),
                   loadOr (runPlaywrightTokenExtraction (sampleExtractorOk sampleToken) "t" none).2)
        else none)) :=
  ⟨by decide, getValidToken_miss (sampleExtractorOk sampleToken) 0 "t" none (by decide)⟩

/-- **C9.** Persisting a successful extraction result whose token string is
`t` (a successful, truthy-token run triggers the `file_data` save) and
loading the cache document afterwards yields a `token_extraction` record
whose `token` field is exactly `t`. -/
theorem extraction_roundtrip (ex : ExtractorRun) (ts : String) (f : CacheFile)
    (t : String)
    (hr : ex.raises = false)
    (hs : pyTruthyOpt (lookupField ex.result "success") = true)
    (ht : lookupField ex.result "token" = some (Json.str t))
    (hne : t ≠ "") :
    ∃ doc, loadTokenData (runPlaywrightTokenExtraction ex ts f).2 = some doc ∧
      tokenCandidate doc = some (Json.str t) := by
  have htok : (lookupField ex.result "token").getD Json.null = Json.str t := by
    simp [ht]
  have hsucc : pyTruthy ((lookupField ex.result "success").getD Json.null) = true := by
    rw [pyTruthy_getD_null]; exact hs
  have htok2 : pyTruthy (Json.str t) = true := by
    simp [pyTruthy, hne]
  refine ⟨Json.obj [("token_extraction",
      Json.obj [("success", Json.bool true), ("token", Json.str t),
        ("source", Json.str "playwright_extraction"),
        ("extracted_at", Json.str ts)]),
      ("api_test", (lookupField ex.result "api_test").getD Json.null),
      ("saved_at", Json.str ts)], ?_, ?_⟩
  · simp [runPlaywrightTokenExtraction, hr, hsucc, htok2, htok,
      saveTokenData, loadTokenData]
  · simp [tokenCandidate, jget, lookupField]

/-- Witness for C9 at a concrete successful extraction. -/
theorem extraction_roundtrip_witness :
    ((sampleExtractorOk sampleToken).raises = false ∧
     pyTruthyOpt (lookupField (sampleExtractorOk sampleToken).result "success") = true ∧
     lookupField (sampleExtractorOk sampleToken).result "token" = some (Json.str sampleToken) ∧
     sampleToken ≠ "") ∧
    ∃ doc, loadTokenData (runPlaywrightTokenExtraction (sampleExtractorOk sampleToken) "t" none).2 = some doc ∧
      tokenCandidate doc = some (Json.str sampleToken) :=
  ⟨⟨rfl, by decide, rfl, by decide⟩,
   extraction_roundtrip (sampleExtractorOk sampleToken) "t" none sampleToken
     rfl (by decide) rfl (by decide)⟩

/-! ## Authenticated request facade (auth_mcp_server.py, lines 202-309)

The HTTP layer (`requests.get/post/put/delete`) is an oracle: it either
returns a response or raises a transport exception.  The request headers
(`_prepare_headers`) and the request body (`payload or {...default...}`)
flow only into that oracle. -/

/-- A completed HTTP response: status code, `response.json()` when the body
parses as JSON (`none` means `response.text` is used instead), and the
raw text. -/
structure HttpResponse where
  status : Int
  body : Option Json
  text : String

/-- Outcome of the single HTTP request a facade call makes. -/
inductive HttpOutcome where
  | resp (r : HttpResponse)
  | raise (msg : String)

/-- `response.json()` with fallback to `response.text` (lines 207-211). -/
def responseData (r : HttpResponse) : Json :=
  match r.body with
  | some j => j
  | none => Json.str r.text

/-- Python dict item assignment `d[key] = v`: replace in place when the
key exists, else append.  Non-object documents raise `TypeError` in
Python; the claims' hypotheses restrict to object documents. -/
def setField (j : Json) (key : String) (v : Json) : Json :=
  match j with
  | Json.obj fields =>
    if (lookupField fields key).isSome then
      Json.obj (fields.map fun kv => if kv.1 = key then (kv.1, v) else kv)
    else
      Json.obj (fields ++ [(key, v)])
  | _ => j

/-- `token_data.get("api_calls", [])` read as a list.  A present non-list
value makes `.append` raise `TypeError` in Python; the claims'
hypotheses (`logWellFormed`) exclude that. -/
def apiLogOf (tokenData : Json) : List Json :=
  match jget tokenData "api_calls" with
  | some (Json.arr xs) => xs
  | _ => []

/-- The document is an object whose `api_calls` key, when present, holds a
list — the only shape the Python code handles without raising. -/
def logWellFormed (tokenData : Json) : Bool :=
  match tokenData with
  | Json.obj fields =>
    match lookupField fields "api_calls" with
    | none => true
    | some (Json.arr _) => true
    | some _ => false
  | _ => false

/-- `api_log.append(result)` followed by `api_log[-10:]`. -/
def appendTrim (log : List Json) (entry : Json) : List Json :=
  let l := log ++ [entry]
  l.drop (l.length - 10)

/-- `_handle_response` (lines 202-226): build the call-log entry, append
it to the loaded document's `api_calls`, keep the last 10 entries, and
persist the document.  Returns the entry and the file afterwards. -/
def handleResponse (r : HttpResponse) (endpoint method ts : String)
    (f : CacheFile) : Json × CacheFile :=
  let tokenData := loadOr f
  let result := Json.obj [
    ("success", Json.bool (r.status = 200 || r.status = 201 || r.status = 204)),
    ("status_code", Json.num r.status),
    ("response_data", responseData r),
    ("endpoint", Json.str endpoint),
    ("method", Json.str (pyUpper method)),
    ("requested_at", Json.str ts)]
  let newLog := appendTrim (apiLogOf tokenData) result
  let tokenData1 := setField tokenData "api_calls" (Json.arr newLog)
  (result, saveTokenData tokenData1 f)

/-- The default request body (lines 239-250). -/
def defaultPayload : Json :=
  Json.obj [("startIndex", Json.num 0), ("count", Json.num 25),
    ("groupId", Json.str "6d167a66-9c03-b981-6e37-8770c76676be"),
    ("simpleFilters", Json.arr []),
    ("orderBy", Json.arr [Json.obj [("key", Json.str "otaMode"),
      ("order", Json.str "ascending")]])]

/-- The failure returned when no valid token is available (lines 251-255). -/
def noTokenError : Json :=
  Json.obj [("success", Json.bool false),
    ("error", Json.str "No valid token found or failed to extract token.")]

/-- The failure returned for an unsupported HTTP method (lines 266-270). -/
def unsupportedMethodError (method : String) : Json :=
  Json.obj [("success", Json.bool false),
    ("error", Json.str ("Unsupported HTTP method: " ++ method))]

/-- The error entry built in the `except` branch (lines 273-280). -/
def transportError (msg endpoint method ts : String) : Json :=
  Json.obj [("success", Json.bool false), ("error", Json.str msg),
    ("endpoint", Json.str endpoint), ("method", Json.str (pyUpper method)),
    ("requested_at", Json.str ts)]

/-- Observable outcome of `_make_api_call`: the returned dict, the cache
file afterwards, the number of automation runs, the number of HTTP
requests attempted, and the request body (`data`) value the call computed. -/
structure ApiCallResult where
  result : Json
  file : CacheFile
  runs : Nat
  httpCalls : Nat
  data : Json

/-- `_make_api_call` (lines 228-285): obtain a token via `_get_valid_token`
(this happens before anything else), fail when none, dispatch on the
upper-cased method, and hand a completed response to `_handle_response`.
In the `except` branch for a raised transport exception, the code builds
the error entry and even computes the trimmed `api_calls` list
(lines 281-283), but the `save_token_data` call (line 284) is commented
out, so the file is left unchanged and the appended entry is discarded
with the local dict. -/
def makeApiCall (ex : ExtractorRun) (http : HttpOutcome)
    (endpoint method : String) (payload : Option Json) (now : Int)
    (ts : String) (f : CacheFile) : ApiCallResult :=
  let tf := getValidToken ex now ts f
  let data := match payload with
    | some p => if pyTruthy p then p else defaultPayload
    | none => defaultPayload
  match tf.ret with
  | none =>
    { result := noTokenError, file := tf.file, runs := tf.runs,
      httpCalls := 0, data := data }
  | some (t, _) =>
    if t = "" then
      { result := noTokenError, file := tf.file, runs := tf.runs,
        httpCalls := 0, data := data }
    else
      let up := pyUpper method
      if up = "GET" || up = "POST" || up = "PUT" || up = "DELETE" then
        match http with
        | HttpOutcome.resp r =>
          let hr := handleResponse r endpoint method ts tf.file
          { result := hr.1, file := hr.2, runs := tf.runs,
            httpCalls := 1, data := data }
        | HttpOutcome.raise msg =>
          { result := transportError msg endpoint method ts, file := tf.file,
            runs := tf.runs, httpCalls := 1, data := data }
      else
        { result := unsupportedMethodError method, file := tf.file,
          runs := tf.runs, httpCalls := 0, data := data }

theorem lookupField_append_single (fields : List (String × Json))
    (key : String) (v : Json) :
    lookupField (fields ++ [(key, v)]) key = some v := by
  induction fields with
  | nil => simp [lookupField]
  | cons kv rest ih => simp [lookupField, ih]

theorem lookupField_map_replace_none (fields : List (String × Json))
    (key : String) (v : Json) (h : lookupField fields key = none) :
    lookupField (fields.map fun kv => if kv.1 = key then (kv.1, v) else kv)
      key = none := by
  induction fields with
  | nil => simp [lookupField]
  | cons kv rest ih =>
    simp only [lookupField] at h
    cases hrest : lookupField rest key with
    | some w => rw [hrest] at h; exact absurd h (by simp)
    | none =>
      rw [hrest] at h
      have hk : kv.1 ≠ key := by
        intro hk; rw [if_pos hk] at h; exact absurd h (by simp)
      rw [List.map_cons, if_neg hk]
      simp [lookupField, hk, ih hrest]

theorem lookupField_map_replace (fields : List (String × Json))
    (key : String) (v : Json) (h : (lookupField fields key).isSome) :
    lookupField (fields.map fun kv => if kv.1 = key then (kv.1, v) else kv)
      key = some v := by
  induction fields with
  | nil => simp [lookupField] at h
  | cons kv rest ih =>
    cases hrest : lookupField rest key with
    | some w =>
      have := ih (by rw [hrest]; rfl)
      simp [lookupField, this]
    | none =>
      have hk : kv.1 = key := by
        simp only [lookupField, hrest] at h
        by_contra hk
        rw [if_neg hk] at h
        exact absurd h (by simp)
      rw [List.map_cons, if_pos hk]
      simp [lookupField, hk, lookupField_map_replace_none rest key v hrest]

/-- Writing `api_calls` into an object document and reading it back yields
the written list. -/
theorem jget_setField_api_calls (fields : List (String × Json)) (v : Json) :
    jget (setField (Json.obj fields) "api_calls" v) "api_calls" = some v := by
  simp only [setField]
  cases h : (lookupField fields "api_calls").isSome with
  | true =>
    simp only [h, if_true, jget]
    exact lookupField_map_replace fields "api_calls" v h
  | false =>
    simp only [h, Bool.false_eq_true, if_false, jget]
    exact lookupField_append_single fields "api_calls" v

/-- A `setField` on an object yields a non-empty object, hence a truthy
document. -/
theorem pyTruthy_setField_obj (fields : List (String × Json))
    (key : String) (v : Json) :
    pyTruthy (setField (Json.obj fields) key v) = true := by
  simp only [setField]
  cases h : (lookupField fields key).isSome with
  | true =>
    simp only [h, if_true, pyTruthy]
    cases fields with
    | nil => simp [lookupField] at h
    | cons kv rest => simp
  | false => simp [h, pyTruthy]

/-- **C5.** The `api_calls` sequence stored by the append-and-trim step of
`_handle_response` is exactly `append` followed by keeping the last 10
entries: its length never exceeds 10, and appending an 11th entry to a
10-entry log stores exactly the 10 most recent entries with the oldest
evicted first. -/
theorem handle_response_ring_buffer (r : HttpResponse)
    (endpoint method ts : String) (f : CacheFile)
    (h : logWellFormed (loadOr f) = true) :
    apiLogOf (loadOr (handleResponse r endpoint method ts f).2) =
      appendTrim (apiLogOf (loadOr f)) (handleResponse r endpoint method ts f).1 ∧
    (apiLogOf (loadOr (handleResponse r endpoint method ts f).2)).length ≤ 10 ∧
    ((apiLogOf (loadOr f)).length = 10 →
      apiLogOf (loadOr (handleResponse r endpoint method ts f).2) =
        (apiLogOf (loadOr f)).drop 1 ++ [(handleResponse r endpoint method ts f).1]) := by
  obtain ⟨fields, hfields⟩ : ∃ fields, loadOr f = Json.obj fields := by
    cases hd : loadOr f <;> simp [logWellFormed, hd] at h ⊢
  have hstored : apiLogOf (loadOr (handleResponse r endpoint method ts f).2) =
      appendTrim (apiLogOf (loadOr f)) (handleResponse r endpoint method ts f).1 := by
    simp only [handleResponse, saveTokenData]
    rw [hfields]
    simp only [loadOr]
    rw [pyTruthy_setField_obj]
    simp only [if_true, apiLogOf, jget_setField_api_calls]
  refine ⟨hstored, ?_, ?_⟩
  · rw [hstored]
    simp only [appendTrim, List.length_drop]
    omega
  · intro hlen
    rw [hstored]
    simp only [appendTrim, List.length_append, hlen, List.length_singleton]
    rw [List.drop_append_of_le_length (by omega)]

/-- Witness for C5 at a concrete 10-entry log. -/
def sampleFullLogFile : CacheFile :=
  some (Json.obj [("api_calls",
    Json.arr ((List.range 10).map fun i => Json.num (Int.ofNat i)))])

theorem handle_response_ring_buffer_witness :
    logWellFormed (loadOr sampleFullLogFile) = true ∧
    (apiLogOf (loadOr (handleResponse ⟨200, none, "ok"⟩ "/e" "get" "t" sampleFullLogFile).2) =
      appendTrim (apiLogOf (loadOr sampleFullLogFile))
        (handleResponse ⟨200, none, "ok"⟩ "/e" "get" "t" sampleFullLogFile).1 ∧
    (apiLogOf (loadOr (handleResponse ⟨200, none, "ok"⟩ "/e" "get" "t" sampleFullLogFile).2)).length ≤ 10 ∧
    ((apiLogOf (loadOr sampleFullLogFile)).length = 10 →
      apiLogOf (loadOr (handleResponse ⟨200, none, "ok"⟩ "/e" "get" "t" sampleFullLogFile).2) =
        (apiLogOf (loadOr sampleFullLogFile)).drop 1 ++
          [(handleResponse ⟨200, none, "ok"⟩ "/e" "get" "t" sampleFullLogFile).1])) :=
  ⟨by decide,
   handle_response_ring_buffer ⟨200, none, "ok"⟩ "/e" "get" "t" sampleFullLogFile (by decide)⟩

/-- **C4 (divergence).** A facade call whose HTTP request raises a
transport exception returns the error entry but leaves the cache file
unchanged: the entry is appended only to an in-memory copy, because the
`save_token_data` call in the `except` branch (line 284) is commented
out.  Evaluated here at a concrete valid-cache state and a raising GET. -/
theorem make_api_call_exception_not_persisted :
    (makeApiCall sampleExtractorFail (HttpOutcome.raise "Connection aborted")
      "/rmm/fss/fwupd/getFirmwareUpdateList" "GET" none 0 "t" sampleValidFile).file =
      sampleValidFile ∧
    (makeApiCall sampleExtractorFail (HttpOutcome.raise "Connection aborted")
      "/rmm/fss/fwupd/getFirmwareUpdateList" "GET" none 0 "t" sampleValidFile).result =
      transportError "Connection aborted" "/rmm/fss/fwupd/getFirmwareUpdateList" "GET" "t" ∧
    (makeApiCall sampleExtractorFail (HttpOutcome.raise "Connection aborted")
      "/rmm/fss/fwupd/getFirmwareUpdateList" "GET" none 0 "t" sampleValidFile).httpCalls = 1 :=
  ⟨rfl, rfl, rfl⟩

/-- A valid cached token yields a non-empty token string. -/
theorem tokenValid_tokenStr_ne (t : Option Json) (now : Int)
    (h : tokenValid t now = true) : tokenStr t ≠ "" := by
  cases t with
  | none => simp [tokenValid] at h
  | some v =>
    cases v with
    | str s =>
      simp only [tokenValid, Bool.and_eq_true, decide_eq_true_eq] at h
      simpa [tokenStr] using h.1.1
    | null => simp [tokenValid] at h
    | bool b => simp [tokenValid] at h
    | num n => simp [tokenValid] at h
    | float s e => simp [tokenValid] at h
    | finf neg => simp [tokenValid] at h
    | fnan => simp [tokenValid] at h
    | arr l => simp [tokenValid] at h
    | obj l => simp [tokenValid] at h

/-- **C7 (amended).** When a valid cached token is available, a call with a
method outside GET/POST/PUT/DELETE (case-insensitively) returns the
unsupported-method failure with no HTTP request, no automation run, and an
unchanged cache file.  (Without a valid token, the token-acquisition step
— which precedes the method check and may itself run automation — returns
the no-token failure instead; see the counterexample.) -/
theorem unsupported_method_fails_fast (ex : ExtractorRun) (http : HttpOutcome)
    (endpoint method : String) (payload : Option Json) (now : Int)
    (ts : String) (f : CacheFile)
    (hv : tokenValid (tokenCandidate (loadOr f)) now = true)
    (hm : (pyUpper method = "GET" || pyUpper method = "POST" ||
           pyUpper method = "PUT" || pyUpper method = "DELETE") = false) :
    (makeApiCall ex http endpoint method payload now ts f).result =
      unsupportedMethodError method ∧
    (makeApiCall ex http endpoint method payload now ts f).httpCalls = 0 ∧
    (makeApiCall ex http endpoint method payload now ts f).runs = 0 ∧
    (makeApiCall ex http endpoint method payload now ts f).file = f := by
  have hts := tokenValid_tokenStr_ne _ _ hv
  simp [makeApiCall, getValidToken, hv, hts, hm]

/-- Witness for the amended C7 at a concrete PATCH call with a valid cache. -/
theorem unsupported_method_fails_fast_witness :
    (tokenValid (tokenCandidate (loadOr sampleValidFile)) 0 = true ∧
     (pyUpper "PATCH" = "GET" || pyUpper "PATCH" = "POST" ||
      pyUpper "PATCH" = "PUT" || pyUpper "PATCH" = "DELETE") = false) ∧
    ((makeApiCall sampleExtractorFail (HttpOutcome.raise "unreachable") "/x" "PATCH"
        none 0 "t" sampleValidFile).result = unsupportedMethodError "PATCH" ∧
     (makeApiCall sampleExtractorFail (HttpOutcome.raise "unreachable") "/x" "PATCH"
        none 0 "t" sampleValidFile).httpCalls = 0 ∧
     (makeApiCall sampleExtractorFail (HttpOutcome.raise "unreachable") "/x" "PATCH"
        none 0 "t" sampleValidFile).runs = 0 ∧
     (makeApiCall sampleExtractorFail (HttpOutcome.raise "unreachable") "/x" "PATCH"
        none 0 "t" sampleValidFile).file = sampleValidFile) :=
  ⟨⟨by decide, by decide⟩,
   unsupported_method_fails_fast sampleExtractorFail (HttpOutcome.raise "unreachable")
     "/x" "PATCH" none 0 "t" sampleValidFile (by decide) (by decide)⟩

/-- **C7 (counterexample).** With no cache file and an automation run that
fails, a call with the unsupported method `PATCH` does **not** return the
unsupported-method failure: the token-acquisition step runs first (one
automation run) and the call returns the no-token failure, so the claim as
stated — every unsupported-method call returns an unsupported-method
failure without any network I/O — is false. -/
theorem unsupported_method_counterexample :
    (makeApiCall sampleExtractorFail (HttpOutcome.raise "unreachable") "/x" "PATCH"
       none 0 "t" none).result = noTokenError ∧
    (makeApiCall sampleExtractorFail (HttpOutcome.raise "unreachable") "/x" "PATCH"
       none 0 "t" none).runs = 1 ∧
    noTokenError ≠ unsupportedMethodError "PATCH" := by
  refine ⟨rfl, rfl, ?_⟩
  simp [noTokenError, unsupportedMethodError]

/-! ## Token capture strategy chain
(auth_playwright_optimized.py, `login_and_extract_token`, lines 429-521)

The browser session is modelled by the values the capture code observes:
the mutable `self.intercepted_token` cell at its three read points
(priority 1, after `_trigger_api_calls`, and the final fallback), the
return value of `_trigger_api_calls`, the current URL, and the results of
the storage and cookie scans. -/

/-- Python truthiness of an `Optional[str]` (`None` and `''` are falsy). -/
def pyTruthyS : Option String → Bool
  | some s => s ≠ ""
  | none => false

/-- `re.search(needle + r'([^&]+)', hay)` for a literal `needle` with no
self-overlap: scan left to right; at each occurrence of the needle the
group takes the maximal non-empty run of non-`&` characters, and an
occurrence with an empty group is skipped (the regex engine resumes the
scan). -/
def searchParamAux (needle : List Char) : List Char → Option (List Char)
  | [] => none
  | c :: rest =>
    if needle.isPrefixOf (c :: rest) then
      let v := ((c :: rest).drop needle.length).takeWhile (fun d => d ≠ '&')
      if v.isEmpty then searchParamAux needle rest else some v
    else searchParamAux needle rest

/-- `re.search(r'code=([^&]+)', current_url)` (line 471). -/
def authCodeOf (url : String) : Option String :=
  (searchParamAux ("code=".data) url.data).map String.mk

/-- Lines 487-493: when the URL has a fragment, search it for
`access_token=([^&]+)`; `current_url.split('#')[1]` is the part between
the first and second `#`. -/
def fragmentAccessToken (url : String) : Option String :=
  match (splitOnChar '#' url.data).get? 1 with
  | some frag => (searchParamAux ("access_token=".data) frag).map String.mk
  | none => none

/-- The observable session state feeding the capture chain. -/
structure CaptureSession where
  intercepted1 : Option String
  triggerOk : Bool
  intercepted2 : Option String
  url : String
  storage : Option String
  cookie : Option String
  intercepted3 : Option String

/-- The dict built by `_create_success_response` / the partial-success
dict / `_create_failure_response`, restricted to their discriminating
fields. -/
structure ExtractResponse where
  success : Bool
  token : Option String
  source : Option String
  authorization_code : Option String
  message : Option String
  error : Option String
  url : String

/-- `_create_success_response` (lines 538-547). -/
def mkSuccess (t : Option String) (src : String) (url : String) : ExtractResponse :=
  { success := true, token := t, source := some src,
    authorization_code := none, message := none, error := none, url := url }

/-- The partial-success dict (lines 510-519). -/
def mkPartial (code : String) (url : String) : ExtractResponse :=
  { success := false, token := none, source := none,
    authorization_code := some code,
    message := some "Login successful but JWT token not found. Authorization code available.",
    error := none, url := url }

/-- `_create_failure_response` (lines 549-557). -/
def mkFailure (err : String) (url : String) : ExtractResponse :=
  { success := false, token := none, source := none,
    authorization_code := none, message := none, error := some err, url := url }

/-- The token-extraction phase of `login_and_extract_token`
(lines 467-521): the five capture strategies in priority order, then the
late-interception fallback, then partial success on an authorization
code, then hard failure. -/
def loginAndExtractToken (s : CaptureSession) : ExtractResponse :=
  if pyTruthyS s.intercepted1 then
    mkSuccess s.intercepted1 "api_request_interception" s.url
  else if s.triggerOk then
    mkSuccess s.intercepted2 "api_call_triggered" s.url
  else
    match fragmentAccessToken s.url with
    | some t => mkSuccess (some t) "url_fragment" s.url
    | none =>
      if pyTruthyS s.storage then
        mkSuccess s.storage "browser_storage" s.url
      else if pyTruthyS s.cookie then
        mkSuccess s.cookie "cookies" s.url
      else if pyTruthyS s.intercepted3 then
        mkSuccess s.intercepted3 "intercepted_fallback" s.url
      else
        match authCodeOf s.url with
        | some c => mkPartial c s.url
        | none => mkFailure "No token found" s.url

/-- **C3.** The capture chain tries network interception, triggered
interception, URL-fragment parsing, browser-storage scan, and cookie scan
in exactly this order, returning the result of the first strategy that
yields a token; in particular (first conjunct), whenever an intercepted
network token is present the chain returns it — regardless of any
URL-fragment `access_token`. -/
theorem capture_chain_priority (s : CaptureSession) :
    (pyTruthyS s.intercepted1 = true →
      loginAndExtractToken s = mkSuccess s.intercepted1 "api_request_interception" s.url) ∧
    (pyTruthyS s.intercepted1 = false → s.triggerOk = true →
      loginAndExtractToken s = mkSuccess s.intercepted2 "api_call_triggered" s.url) ∧
    (pyTruthyS s.intercepted1 = false → s.triggerOk = false →
      ∀ t, fragmentAccessToken s.url = some t →
        loginAndExtractToken s = mkSuccess (some t) "url_fragment" s.url) ∧
    (pyTruthyS s.intercepted1 = false → s.triggerOk = false →
      fragmentAccessToken s.url = none → pyTruthyS s.storage = true →
        loginAndExtractToken s = mkSuccess s.storage "browser_storage" s.url) ∧
    (pyTruthyS s.intercepted1 = false → s.triggerOk = false →
      fragmentAccessToken s.url = none → pyTruthyS s.storage = false →
      pyTruthyS s.cookie = true →
        loginAndExtractToken s = mkSuccess s.cookie "cookies" s.url) := by
  refine ⟨?_, ?_, ?_, ?_, ?_⟩
  · intro h1; simp [loginAndExtractToken, h1]
  · intro h1 h2; simp [loginAndExtractToken, h1, h2]
  · intro h1 h2 t h3; simp [loginAndExtractToken, h1, h2, h3]
  · intro h1 h2 h3 h4; simp [loginAndExtractToken, h1, h2, h3, h4]
  · intro h1 h2 h3 h4 h5; simp [loginAndExtractToken, h1, h2, h3, h4, h5]

/-- A concrete session where both a network-intercepted token and a
URL-fragment token are available. -/
def sampleBothSession : CaptureSession :=
  { intercepted1 := some "ntok", triggerOk := false, intercepted2 := none,
    url := "https://app.example/cb#access_token=ftok&state=1",
    storage := none, cookie := none, intercepted3 := some "ntok" }

/-- Witness for C3: with both a network token and a fragment token
available, the network-intercepted token is returned. -/
theorem capture_chain_priority_witness :
    pyTruthyS sampleBothSession.intercepted1 = true ∧
    fragmentAccessToken sampleBothSession.url = some "ftok" ∧
    loginAndExtractToken sampleBothSession =
      mkSuccess (some "ntok") "api_request_interception" sampleBothSession.url :=
  ⟨by decide, by decide, (capture_chain_priority sampleBothSession).1 (by decide)⟩

/-- **C8.** When every capture strategy yields no token (the
intercepted-token cell is never set, triggering fails, and the fragment,
storage and cookie scans are empty), the run returns the distinguishable
partial-success result carrying the URL's authorization code when one is
present, and the hard failure otherwise. -/
theorem capture_chain_partial_success (s : CaptureSession)
    (h1 : pyTruthyS s.intercepted1 = false) (h2 : s.triggerOk = false)
    (h3 : fragmentAccessToken s.url = none) (h4 : pyTruthyS s.storage = false)
    (h5 : pyTruthyS s.cookie = false) (h6 : pyTruthyS s.intercepted3 = false) :
    loginAndExtractToken s =
      (match authCodeOf s.url with
       | some c => mkPartial c s.url
       | none => mkFailure "No token found" s.url) := by
  simp [loginAndExtractToken, h1, h2, h3, h4, h5, h6]

/-- A concrete failed-capture session whose URL carries an authorization
code. -/
def sampleCodeSession : CaptureSession :=
  { intercepted1 := none, triggerOk := false, intercepted2 := none,
    url := "https://app.example/cb?code=abc123&state=1",
    storage := none, cookie := none, intercepted3 := none }

/-- Witness for C8: all strategies empty, `code=abc123` in the URL, and
the run returns the partial-success result carrying the code. -/
theorem capture_chain_partial_success_witness :
    (pyTruthyS sampleCodeSession.intercepted1 = false ∧
     sampleCodeSession.triggerOk = false ∧
     fragmentAccessToken sampleCodeSession.url = none ∧
     pyTruthyS sampleCodeSession.storage = false ∧
     pyTruthyS sampleCodeSession.cookie = false ∧
     pyTruthyS sampleCodeSession.intercepted3 = false) ∧
    loginAndExtractToken sampleCodeSession =
      (match authCodeOf sampleCodeSession.url with
       | some c => mkPartial c sampleCodeSession.url
       | none => mkFailure "No token found" sampleCodeSession.url) :=
  ⟨⟨by decide, by decide, by decide, by decide, by decide, by decide⟩,
   capture_chain_partial_success sampleCodeSession (by decide) (by decide)
     (by decide) (by decide) (by decide) (by decide)⟩

/-! ## `configure_ota_mode` (auth_mcp_server.py, lines 483-616)

The pure validation-and-payload prefix of the tool: everything up to the
`_make_api_call` invocation.  `OtaOutcome.failure` is a failure dict
returned before any API call; `OtaOutcome.callApi p` means the function
proceeds to POST the payload `p` to `/stateful/fss/fwupd/setOTAMode`.
`groupFromToken` is the (oracle) result of `_get_group_id_from_token()`. -/

/-- A character of the device-id base64 class `[A-Za-z0-9+/=]`. -/
def b64IdChar (c : Char) : Bool :=
  let n := c.toNat
  (65 ≤ n && n ≤ 90) || (97 ≤ n && n ≤ 122) || (48 ≤ n && n ≤ 57) ||
    c = '+' || c = '/' || c = '='

/-- `re.match(r'^mn=[A-Za-z0-9+/=]+:sn=[A-Za-z0-9+/=]+$', s)`: since the
character class excludes `:`, a matching string contains exactly one `:`,
splitting it into `mn=`/`sn=` halves with non-empty class-only tails. -/
def validDeviceId (s : String) : Bool :=
  match splitOnChar ':' s.data with
  | [x, y] =>
    (match x with
     | 'm' :: 'n' :: '=' :: a => !a.isEmpty && a.all b64IdChar
     | _ => false) &&
    (match y with
     | 's' :: 'n' :: '=' :: b => !b.isEmpty && b.all b64IdChar
     | _ => false)
  | _ => false

/-- Python `repr` of a list of strings, as interpolated into the
invalid-device error message. -/
def pyListRepr (xs : List String) : String :=
  "[" ++ String.intercalate ", " (xs.map fun s => "'" ++ s ++ "'") ++ "]"

/-- Outcome of the validation prefix: an early failure dict, or the
payload handed to the API call. -/
inductive OtaOutcome where
  | failure (error : String)
  | callApi (payload : Json)

def otaFallbackGroupId : String := "6d167a66-9c03-b981-6e37-8770c76676be"

/-- Lines 547-555: `if not group_id:` take the token-derived group id;
`if not group_id:` fall back to the default. -/
def resolveGroupId (gid gtok : Option String) : String :=
  let g := if pyTruthyS gid then gid else gtok
  match g with
  | some s => if s = "" then otaFallbackGroupId else s
  | none => otaFallbackGroupId

/-- The validation-and-payload prefix of `configure_ota_mode`
(lines 503-572): mode check, device-id check, defaulting of the hours to
2 and 4, the update-window checks (applied only for `"auto"`), then the
`setOTAMode` payload. -/
def configureOtaMode (device_ids : List String) (ota_mode : String)
    (start_hour end_hour : Option Int) (group_id : Option String)
    (groupFromToken : Option String) : OtaOutcome :=
  if ¬(ota_mode = "auto" ∨ ota_mode = "confirmation" ∨ ota_mode = "off") then
    OtaOutcome.failure ("Invalid ota_mode '" ++ ota_mode ++
      "'. Must be one of: auto, confirmation, off")
  else
    let invalid := device_ids.filter fun d => !validDeviceId d
    if ¬invalid.isEmpty then
      OtaOutcome.failure ("Invalid device ID format: " ++ pyListRepr invalid ++
        ". Expected format: 'mn=<base64>:sn=<base64>'")
    else
      let sh := start_hour.getD 2
      let eh := end_hour.getD 4
      if ota_mode = "auto" ∧ ¬((-1 ≤ sh ∧ sh ≤ 23) ∧ (-1 ≤ eh ∧ eh ≤ 23)) then
        OtaOutcome.failure
          "start_hour and end_hour must be between 0-23 or -1 (for 24hrs availability)"
      else if ota_mode = "auto" ∧ sh ≠ -1 ∧ eh ≠ -1 ∧ sh ≥ eh then
        OtaOutcome.failure
          "start_hour must be less than end_hour when not using 24hr availability (-1)"
      else
        OtaOutcome.callApi (Json.obj [
          ("groupId", Json.str (resolveGroupId group_id groupFromToken)),
          ("deviceIds", Json.arr (device_ids.map Json.str)),
          ("isExclude", Json.bool false),
          ("otaMode", Json.str ota_mode),
          ("otaStartHour", Json.num sh),
          ("otaEndHour", Json.num eh)])

/-- **C10.** (1) An `ota_mode` outside `auto`/`confirmation`/`off` always
returns a failure before any API call; (2) for `confirmation` and `off`
with well-formed device ids, any integer hours (defaulting to 2 and 4
when omitted) are accepted and placed in the outgoing payload unchanged —
the update-window checks are not applied; (3) for `auto` the range check
is applied. -/
theorem configure_ota_mode_spec :
    (∀ (ids : List String) (mode : String) (sh eh : Option Int)
       (gid gtok : Option String),
      mode ≠ "auto" → mode ≠ "confirmation" → mode ≠ "off" →
      configureOtaMode ids mode sh eh gid gtok =
        OtaOutcome.failure ("Invalid ota_mode '" ++ mode ++
          "'. Must be one of: auto, confirmation, off")) ∧
    (∀ (ids : List String) (mode : String) (sh eh : Option Int)
       (gid gtok : Option String),
      (mode = "confirmation" ∨ mode = "off") →
      ids.all validDeviceId = true →
      configureOtaMode ids mode sh eh gid gtok =
        OtaOutcome.callApi (Json.obj [
          ("groupId", Json.str (resolveGroupId gid gtok)),
          ("deviceIds", Json.arr (ids.map Json.str)),
          ("isExclude", Json.bool false),
          ("otaMode", Json.str mode),
          ("otaStartHour", Json.num (sh.getD 2)),
          ("otaEndHour", Json.num (eh.getD 4))])) ∧
    (∀ (ids : List String) (sh eh : Int) (gid gtok : Option String),
      ids.all validDeviceId = true →
      ¬((-1 ≤ sh ∧ sh ≤ 23) ∧ (-1 ≤ eh ∧ eh ≤ 23)) →
      configureOtaMode ids "auto" (some sh) (some eh) gid gtok =
        OtaOutcome.failure
          "start_hour and end_hour must be between 0-23 or -1 (for 24hrs availability)") := by
  have hfilter : ∀ (ids : List String), ids.all validDeviceId = true →
      (ids.filter fun d => !validDeviceId d) = [] := by
    intro ids hall
    rw [List.filter_eq_nil_iff]
    intro a ha
    rw [List.all_eq_true] at hall
    simp [hall a ha]
  refine ⟨?_, ?_, ?_⟩
  · intro ids mode sh eh gid gtok h1 h2 h3
    simp [configureOtaMode, h1, h2, h3]
  · intro ids mode sh eh gid gtok hmode hall
    rcases hmode with h | h <;> subst h <;>
      simp [configureOtaMode, hfilter ids hall]
  · intro ids sh eh gid gtok hall hrange
    simp [configureOtaMode, hfilter ids hall, hrange]

/-- Witness for C10, conjunct (2): mode `off` with a well-formed device id
and an out-of-range end hour is accepted, the hours landing in the
payload unchanged. -/
theorem configure_ota_mode_spec_witness :
    (("off" : String) = "confirmation" ∨ ("off" : String) = "off") ∧
    (["mn=QUJD:sn=MTIz"] : List String).all validDeviceId = true ∧
    configureOtaMode ["mn=QUJD:sn=MTIz"] "off" none (some 99) (some "g") none =
      OtaOutcome.callApi (Json.obj [
        ("groupId", Json.str (resolveGroupId (some "g") none)),
        ("deviceIds", Json.arr (["mn=QUJD:sn=MTIz"].map Json.str)),
        ("isExclude", Json.bool false),
        ("otaMode", Json.str "off"),
        ("otaStartHour", Json.num ((none : Option Int).getD 2)),
        ("otaEndHour", Json.num ((some (99 : Int)).getD 4))]) :=
  ⟨Or.inr rfl, by decide,
   configure_ota_mode_spec.2.1 ["mn=QUJD:sn=MTIz"] "off" none (some 99)
     (some "g") none (Or.inr rfl) (by decide)⟩

end Rmm
